import Mathlib

/-!
Verification of `onedrive_d/common/tasks.py` (task-dispatch layer of the
onedrive-d synchronizer).

The Python module is embedded shallowly:

* Paths are `List Char`.  Python's `str.replace(old, new, 1)` — replacement
  of the first (leftmost) occurrence — is embedded as `replaceFirst`;
  `findSub` computes the index of that first occurrence.
* Each task's `handle()` is a pure function from an *environment* (the
  outcomes of the external drive/store/filesystem calls it performs) to an
  outcome consisting of a trace of the effects it issued, the exception it
  let escape (if any), and any updated task fields.  Remote drive calls
  raise structured `OneDriveError`s, local `os` calls raise `OSError`s;
  both carry a message string.
* Types that `tasks.py` imports from sibling modules not part of the
  analysed source (`options.NameConflictBehavior`, `ItemRecordStatuses`,
  the API item resource, the timestamp/datetime converters) are modelled
  from the spec, as noted on each definition.
-/

namespace OnedriveTasks

/-- The constant suffix appended to a drive path to form the drive-root
marker, written in the source as the literal `'/root:'`. -/
def rootSuffix : List Char := ("/root:").data

/-- `drive.drive_path + '/root:'`, the drive-root marker prefix used by
`LocalParentPathMixin` for both directions of path translation. -/
def driveRootMarker (drive_path : List Char) : List Char :=
  drive_path ++ rootSuffix

/-- Python `s.replace(old, new, 1)`: replace the first (leftmost)
occurrence of `old` in `s` by `new`; if `old` does not occur, return `s`
unchanged.  (For empty `old`, Python inserts `new` at position 0.) -/
def replaceFirst : List Char → List Char → List Char → List Char
  | [], old, new => if old.isEmpty then new else []
  | c :: rest, old, new =>
    if old.isPrefixOf (c :: rest) then new ++ (c :: rest).drop old.length
    else c :: replaceFirst rest old new

/-- Index of the first occurrence of `old` as a contiguous substring of
`s` (`none` when it does not occur), mirroring where
`str.replace(…, 1)` substitutes. -/
def findSub : List Char → List Char → Option Nat
  | [], old => if old.isEmpty then some 0 else none
  | c :: rest, old =>
    if old.isPrefixOf (c :: rest) then some 0
    else (findSub rest old).map (· + 1)

/-- The `local_parent_path` property getter of `LocalParentPathMixin`:
`self.parent_path.replace(self.drive.drive_path + '/root:',
self.drive.config.local_root, 1)`. -/
def local_parent_path (drive_path local_root parent_path : List Char) :
    List Char :=
  replaceFirst parent_path (driveRootMarker drive_path) local_root

/-- The `local_parent_path` property setter of `LocalParentPathMixin`:
`self.parent_path = self.drive.drive_path + '/root:' + relative_path`. -/
def set_local_parent_path (drive_path relative_path : List Char) :
    List Char :=
  driveRootMarker drive_path ++ relative_path

/- ### Lemmas about `replaceFirst` and `findSub` -/

theorem replaceFirst_of_isPrefixOf (s old new : List Char)
    (h0 : old ≠ []) (h : old.isPrefixOf s = true) :
    replaceFirst s old new = new ++ s.drop old.length := by
  cases s with
  | nil =>
    rw [List.isPrefixOf_iff_prefix] at h
    exact absurd (List.prefix_nil.mp h) h0
  | cons c rest => simp [replaceFirst, h]

theorem replaceFirst_of_findSub_none (s old new : List Char)
    (h : findSub s old = none) : replaceFirst s old new = s := by
  induction s with
  | nil =>
    by_cases he : old.isEmpty
    · simp [findSub, he] at h
    · simp [replaceFirst, he]
  | cons c rest ih =>
    by_cases hp : old.isPrefixOf (c :: rest)
    · simp [findSub, hp] at h
    · simp [findSub, hp, Option.map_eq_none'] at h
      simp [replaceFirst, hp, ih h]

theorem replaceFirst_of_findSub_some (s old new : List Char) (i : Nat)
    (h : findSub s old = some i) :
    replaceFirst s old new = s.take i ++ new ++ s.drop (i + old.length) := by
  induction s generalizing i with
  | nil =>
    by_cases he : old.isEmpty
    · simp only [findSub, he, if_true, Option.some.injEq] at h
      subst h
      simp [replaceFirst, he, List.isEmpty_iff.mp he]
    · simp [findSub, he] at h
  | cons c rest ih =>
    by_cases hp : old.isPrefixOf (c :: rest)
    · simp only [findSub, hp, if_true, Option.some.injEq] at h
      subst h
      simp [replaceFirst, hp]
    · simp [findSub, hp, Option.map_eq_some'] at h
      obtain ⟨i', hi', rfl⟩ := h
      have hrw := ih i' hi'
      simp only [replaceFirst, hrw, if_neg hp]
      simp [List.take_succ_cons, List.drop_succ_cons, Nat.succ_add]

theorem findSub_none_not_at (s old : List Char)
    (h : findSub s old = none) :
    ∀ j, old.isPrefixOf (s.drop j) = false := by
  induction s with
  | nil =>
    intro j
    by_cases he : old.isEmpty
    · simp [findSub, he] at h
    · cases old with
      | nil => simp [List.isEmpty] at he
      | cons o os => simp [List.isPrefixOf]
  | cons c rest ih =>
    intro j
    by_cases hp : old.isPrefixOf (c :: rest)
    · simp [findSub, hp] at h
    · simp [findSub, hp, Option.map_eq_none'] at h
      cases j with
      | zero => simpa using Bool.of_not_eq_true hp
      | succ j' => simpa using ih h j'

theorem findSub_some_isPrefixOf (s old : List Char) (i : Nat)
    (h : findSub s old = some i) : old.isPrefixOf (s.drop i) = true := by
  induction s generalizing i with
  | nil =>
    by_cases he : old.isEmpty
    · simp only [findSub, he, if_true, Option.some.injEq] at h
      subst h
      simp [List.isEmpty_iff.mp he, List.isPrefixOf]
    · simp [findSub, he] at h
  | cons c rest ih =>
    by_cases hp : old.isPrefixOf (c :: rest)
    · simp only [findSub, hp, if_true, Option.some.injEq] at h
      subst h
      simpa using hp
    · simp [findSub, hp, Option.map_eq_some'] at h
      obtain ⟨i', hi', rfl⟩ := h
      simpa using ih i' hi'

theorem findSub_some_min (s old : List Char) (i : Nat)
    (h : findSub s old = some i) :
    ∀ j, old.isPrefixOf (s.drop j) = true → i ≤ j := by
  induction s generalizing i with
  | nil =>
    by_cases he : old.isEmpty
    · simp only [findSub, he, if_true, Option.some.injEq] at h
      subst h
      exact fun j _ => Nat.zero_le j
    · simp [findSub, he] at h
  | cons c rest ih =>
    by_cases hp : old.isPrefixOf (c :: rest)
    · simp only [findSub, hp, if_true, Option.some.injEq] at h
      subst h
      exact fun j _ => Nat.zero_le j
    · simp [findSub, hp, Option.map_eq_some'] at h
      obtain ⟨i', hi', rfl⟩ := h
      intro j hj
      cases j with
      | zero => exact absurd (by simpa using hj) hp
      | succ j' => exact Nat.succ_le_succ (ih i' hi' j' (by simpa using hj))

theorem findSub_none_iff (s old : List Char) :
    findSub s old = none ↔ ¬ ∃ pre suf, pre ++ old ++ suf = s := by
  constructor
  · intro h ⟨pre, suf, hps⟩
    have hdrop : s.drop pre.length = old ++ suf := by
      rw [← hps, List.append_assoc, List.drop_left]
    have : old.isPrefixOf (s.drop pre.length) = true := by
      rw [hdrop, List.isPrefixOf_iff_prefix]
      exact List.prefix_append old suf
    rw [findSub_none_not_at s old h pre.length] at this
    exact Bool.false_ne_true this
  · intro h
    cases hf : findSub s old with
    | none => rfl
    | some i =>
      exfalso
      have hpre := findSub_some_isPrefixOf s old i hf
      rw [List.isPrefixOf_iff_prefix] at hpre
      obtain ⟨t, ht⟩ := hpre
      exact h ⟨s.take i, t, by rw [List.append_assoc, ht, List.take_append_drop]⟩

theorem driveRootMarker_ne_nil (drive_path : List Char) :
    driveRootMarker drive_path ≠ [] := by
  simp [driveRootMarker, rootSuffix]

/- ### Claim C1: path round-trip -/

/-- **C1.** Path round-trip: for every local root, drive-root marker and
remote parent path `x` that starts with the marker `drive_path ++ '/root:'`,
translating `x` to a local parent path via the `local_parent_path` getter,
stripping the local root to recover the relative path, and applying the
`local_parent_path` setter yields the original remote path `x`. -/
theorem pathRoundTrip (drive_path local_root x : List Char)
    (h : (driveRootMarker drive_path).isPrefixOf x = true) :
    set_local_parent_path drive_path
      ((local_parent_path drive_path local_root x).drop local_root.length)
      = x := by
  have hloc : local_parent_path drive_path local_root x
      = local_root ++ x.drop (driveRootMarker drive_path).length :=
    replaceFirst_of_isPrefixOf x (driveRootMarker drive_path) local_root
      (driveRootMarker_ne_nil drive_path) h
  rw [List.isPrefixOf_iff_prefix] at h
  obtain ⟨t, ht⟩ := h
  rw [hloc, List.drop_left, ← ht, List.drop_left]
  rfl

/-- Witness for C1 at a concrete drive path, local root and remote path. -/
theorem pathRoundTrip_witness :
    (driveRootMarker (("/d").data)).isPrefixOf (("/d/root:/a/b").data) = true
    ∧ set_local_parent_path (("/d").data)
        ((local_parent_path (("/d").data) (("/home/u/od").data)
            (("/d/root:/a/b").data)).drop (("/home/u/od").data).length)
        = ("/d/root:/a/b").data :=
  ⟨by decide, pathRoundTrip (("/d").data) (("/home/u/od").data)
    (("/d/root:/a/b").data) (by decide)⟩

/- ### Claim C10: totality of the path translator on malformed input -/

/-- **C10.** The `local_parent_path` getter is a total function on path
strings (the embedding is a total Lean function translated from
`str.replace(marker, local_root, 1)`): when the drive-root marker does not
occur in the parent path (`findSub … = none`, equivalent to there being no
substring decomposition), the translation returns the input unchanged; when
it occurs, the substitution is applied at the first (leftmost) occurrence
`i`, i.e. the marker is a prefix of `p.drop i`, no earlier position has
that property, and the result replaces exactly that occurrence. -/
theorem localParentPath_total (drive_path local_root p : List Char) :
    (findSub p (driveRootMarker drive_path) = none →
      local_parent_path drive_path local_root p = p)
    ∧ (findSub p (driveRootMarker drive_path) = none ↔
        ¬ ∃ pre suf, pre ++ driveRootMarker drive_path ++ suf = p)
    ∧ ∀ i, findSub p (driveRootMarker drive_path) = some i →
        local_parent_path drive_path local_root p
          = p.take i ++ local_root
              ++ p.drop (i + (driveRootMarker drive_path).length)
        ∧ (driveRootMarker drive_path).isPrefixOf (p.drop i) = true
        ∧ ∀ j, (driveRootMarker drive_path).isPrefixOf (p.drop j) = true →
            i ≤ j :=
  ⟨fun h => replaceFirst_of_findSub_none _ _ _ h,
    findSub_none_iff _ _,
    fun i hi => ⟨replaceFirst_of_findSub_some _ _ _ i hi,
      findSub_some_isPrefixOf _ _ i hi, findSub_some_min _ _ i hi⟩⟩

/-- Witness for C10: a path without the marker is returned unchanged, and a
path holding the marker only as a non-prefix substring is substituted at
that first occurrence. -/
theorem localParentPath_total_witness :
    local_parent_path (("/d").data) (("/L").data) (("xyz").data)
      = ("xyz").data
    ∧ local_parent_path (("/d").data) (("/L").data) (("a/d/root:b").data)
      = ("a/Lb").data := by
  refine ⟨(localParentPath_total (("/d").data) (("/L").data)
    (("xyz").data)).1 (by decide), ?_⟩
  have h := ((localParentPath_total (("/d").data) (("/L").data)
    (("a/d/root:b").data)).2.2 1 (by decide)).1
  exact h.trans (by decide)

/- ### Data model of the task layer -/

/-- Modelled from the spec: `options.NameConflictBehavior`, the enumeration
of remote name-conflict policies passed through to create/upload calls;
only `RENAME` is referenced by `tasks.py` (as the default). -/
inductive NameConflictBehavior where
  | RENAME
  | REPLACE
  | FAIL
deriving DecidableEq

/-- Modelled from the spec: `ItemRecordStatuses` of `store.items_db`; the
spec requires at least `OK` and `DOWNLOADED`. -/
inductive ItemRecordStatus where
  | OK
  | DOWNLOADED
deriving DecidableEq

/-- The remote item resource as used by `tasks.py`: `id`, `name`,
`parent_reference.path`, `size` and `modified_time` (the latter an abstract
datetime value, embedded as `Int`). -/
structure ItemObj where
  id : List Char
  name : List Char
  parent_reference_path : List Char
  size : Nat
  modified_time : Int
deriving DecidableEq

/-- Exceptions distinguished by the task layer: `errors.OneDriveError`
raised by drive-client calls, and `OSError` raised by local `os` calls;
each carries a message. -/
inductive PyError where
  | oneDriveError (msg : List Char)
  | osError (msg : List Char)
deriving DecidableEq

/-- The follow-up task kind that can be enqueued by `tasks.py`:
`CreateDirTask.handle` enqueues one `SynchronizeDirTask`. -/
inductive TaskDescr where
  | syncDir
deriving DecidableEq

/-- One externally visible effect issued by a `handle()` run: a drive-client
call, an item-store mutation, a task-pool enqueue, or a local filesystem
operation.  A call is recorded when it is issued, whether or not it then
raises. -/
inductive Event where
  | driveCreateDir (name parent_path : List Char) (cb : NameConflictBehavior)
  | driveDeleteItem (item_path : List Char)
  | driveDownloadFile (item_id : List Char) (size : Nat)
  | driveUploadFile (filename : List Char) (size : Nat)
      (parent_path : List Char) (cb : NameConflictBehavior)
  | driveUpdateItem (item_id : List Char) (modified_time : Int)
  | storeUpdate (item : ItemObj) (status : ItemRecordStatus)
  | storeDelete (parent_path item_name : List Char) (is_folder : Bool)
  | poolAdd (t : TaskDescr)
  | fileOpenWrite (path : List Char)
  | osRename (src dst : List Char)
  | osUtime (path : List Char) (t : Int)
deriving DecidableEq

/-- Result of one `handle()` run: the ordered trace of effects it issued and
the exception it let escape to the caller (`none` when it returned
normally). -/
structure Outcome where
  events : List Event
  raised : Option PyError
deriving DecidableEq

/-- Result of `CreateDirTask.handle`, which additionally mutates the task's
own `parent_path` field. -/
structure CreateDirOutcome where
  events : List Event
  raised : Option PyError
  parent_path : List Char
deriving DecidableEq

/- ### Task context construction (`__init__` chains) -/

/-- A parent task's context: the three references every task carries. The
handles are abstract identities. -/
structure TaskBase where
  drive : Nat
  items_store : Nat
  task_pool : Nat
deriving DecidableEq

/-- A freshly constructed task's three context attributes; `none` means the
attribute was never assigned by any `__init__` in the chain. -/
structure TaskSlots where
  drive : Option Nat
  items_store : Option Nat
  task_pool : Option Nat
deriving DecidableEq

/-- `TaskMixin.__init__(task_base=base)`: each of `drive`, `items_store`
and `task_pool` is assigned the parent's reference. -/
def taskMixin_init_from_base (base : TaskBase) : TaskSlots :=
  ⟨some base.drive, some base.items_store, some base.task_pool⟩

/-- `CreateDirTask.__init__` calls `super().__init__(task_base=task_base)`,
which resolves to `TaskMixin.__init__`. -/
def createDirTask_init_slots (base : TaskBase) : TaskSlots :=
  taskMixin_init_from_base base

/-- `RemoveItemTask.__init__` calls `super().__init__(task_base=task_base)`. -/
def removeItemTask_init_slots (base : TaskBase) : TaskSlots :=
  taskMixin_init_from_base base

/-- `DownloadFileTask.__init__` calls `super().__init__(task_base=task_base)`. -/
def downloadFileTask_init_slots (base : TaskBase) : TaskSlots :=
  taskMixin_init_from_base base

/-- `UploadFileTask.__init__` calls `super().__init__(task_base=task_base)`. -/
def uploadFileTask_init_slots (base : TaskBase) : TaskSlots :=
  taskMixin_init_from_base base

/-- `SynchronizeDirTask.__init__(self, task_base)` has body `pass`: the
`task_base` argument is ignored and no attribute is assigned. -/
def synchronizeDirTask_init_slots (_base : TaskBase) : TaskSlots :=
  ⟨none, none, none⟩

/- ### `CreateDirTask.handle` -/

/-- Environment of one `CreateDirTask.handle` run: the outcome of the
`drive.create_dir` call (a `OneDriveError` message or the created item) and
of the `os.rename` call (an `OSError` message or success).  The drive
client raises structured `OneDriveError`s; `os.rename` raises `OSError`s. -/
structure CreateDirEnv where
  create_dir_result : Except (List Char) ItemObj
  rename_result : Except (List Char) Unit

/-- `CreateDirTask.handle`: call `drive.create_dir(name, parent_path,
conflict_behavior)`; on success assign `self.parent_path` from the returned
item's `parent_reference.path`, rename the local directory when the server
returned a different name (the rename paths use the freshly assigned
`parent_path`), update the store with status `OK`, and enqueue a
`SynchronizeDirTask` built from `self`.  Only `errors.OneDriveError` is
caught; an `OSError` from `os.rename` escapes. -/
def createDirHandle (drive_path local_root parent_path name : List Char)
    (cb : NameConflictBehavior) (env : CreateDirEnv) : CreateDirOutcome :=
  let callEv := Event.driveCreateDir name parent_path cb
  match env.create_dir_result with
  | Except.error _ => ⟨[callEv], none, parent_path⟩
  | Except.ok new_item =>
    let parent_path' := new_item.parent_reference_path
    if new_item.name = name then
      ⟨[callEv, Event.storeUpdate new_item ItemRecordStatus.OK,
        Event.poolAdd TaskDescr.syncDir], none, parent_path'⟩
    else
      let lpp := local_parent_path drive_path local_root parent_path'
      let src := lpp ++ '/' :: name
      let dst := lpp ++ '/' :: new_item.name
      match env.rename_result with
      | Except.error m =>
        ⟨[callEv, Event.osRename src dst], some (PyError.osError m),
          parent_path'⟩
      | Except.ok _ =>
        ⟨[callEv, Event.osRename src dst,
          Event.storeUpdate new_item ItemRecordStatus.OK,
          Event.poolAdd TaskDescr.syncDir], none, parent_path'⟩

/- ### `RemoveItemTask.handle` -/

/-- Environment of one `RemoveItemTask.handle` run: the outcome of the
`drive.delete_item` call. -/
structure RemoveItemEnv where
  delete_result : Except (List Char) Unit

/-- `RemoveItemTask.handle`: compute `p = parent_path + '/' + name`, call
`drive.delete_item(item_path=p)`, and on success delete the store record
keyed by `(parent_path, name, is_folder)`; a `OneDriveError` is caught and
only logged. -/
def removeItemHandle (parent_path name : List Char) (is_folder : Bool)
    (env : RemoveItemEnv) : Outcome :=
  let p := parent_path ++ '/' :: name
  match env.delete_result with
  | Except.error _ => ⟨[Event.driveDeleteItem p], none⟩
  | Except.ok _ =>
    ⟨[Event.driveDeleteItem p,
      Event.storeDelete parent_path name is_folder], none⟩

/- ### `DownloadFileTask.handle` -/

/-- `DownloadFileTask.get_temp_filename`:
`'.' + self.item.name + '.!od_tmp'`. -/
def get_temp_filename (item : ItemObj) : List Char :=
  '.' :: item.name ++ (".!od_tmp").data

/-- Environment of one `DownloadFileTask.handle` run: outcomes of the
`open(temp, 'wb')`, `drive.download_file`, `os.rename` and `os.utime`
calls. -/
structure DownloadEnv where
  open_result : Except (List Char) Unit
  download_result : Except (List Char) Unit
  rename_result : Except (List Char) Unit
  utime_result : Except (List Char) Unit

/-- `DownloadFileTask.handle`: write the remote content into the hidden
temp path under the local parent directory, rename it onto the final local
path, set the file times to
`datetime_to_timestamp(item.modified_time)` (the converter lives outside
the analysed source and is abstracted as the parameter `d2ts`, modelled
from the spec as the domain-time to filesystem-time conversion), and update
the store with status `DOWNLOADED`.  The bare `except Exception` swallows
every error.  The task's `parent_path` was set from
`item.parent_reference.path` at construction. -/
def downloadFileHandle (drive_path local_root : List Char) (d2ts : Int → Int)
    (item : ItemObj) (env : DownloadEnv) : Outcome :=
  let lpp := local_parent_path drive_path local_root
    item.parent_reference_path
  let local_temp_path := lpp ++ '/' :: get_temp_filename item
  let local_item_path := lpp ++ '/' :: item.name
  match env.open_result with
  | Except.error _ => ⟨[], none⟩
  | Except.ok _ =>
    match env.download_result with
    | Except.error _ =>
      ⟨[Event.fileOpenWrite local_temp_path,
        Event.driveDownloadFile item.id item.size], none⟩
    | Except.ok _ =>
      match env.rename_result with
      | Except.error _ =>
        ⟨[Event.fileOpenWrite local_temp_path,
          Event.driveDownloadFile item.id item.size,
          Event.osRename local_temp_path local_item_path], none⟩
      | Except.ok _ =>
        let t := d2ts item.modified_time
        match env.utime_result with
        | Except.error _ =>
          ⟨[Event.fileOpenWrite local_temp_path,
            Event.driveDownloadFile item.id item.size,
            Event.osRename local_temp_path local_item_path,
            Event.osUtime local_item_path t], none⟩
        | Except.ok _ =>
          ⟨[Event.fileOpenWrite local_temp_path,
            Event.driveDownloadFile item.id item.size,
            Event.osRename local_temp_path local_item_path,
            Event.osUtime local_item_path t,
            Event.storeUpdate item ItemRecordStatus.DOWNLOADED], none⟩

/- ### `UploadFileTask.handle` -/

/-- Environment of one `UploadFileTask.handle` run: outcomes of
`os.path.getsize`, `open(…, 'rb')`, `drive.upload_file`,
`os.path.getmtime` and `drive.update_item`. -/
structure UploadEnv where
  getsize_result : Except (List Char) Nat
  open_result : Except (List Char) Unit
  upload_result : Except (List Char) ItemObj
  getmtime_result : Except (List Char) Int
  update_result : Except (List Char) ItemObj

/-- `UploadFileTask.handle`: read the local file size, upload the content
to the remote parent path, then push the local modification time
(`timestamp_to_datetime(os.path.getmtime(...))`; the converter lives
outside the analysed source and is abstracted as the parameter `ts2dt`,
modelled from the spec as the filesystem-time to domain-time conversion)
through a second remote call `drive.update_item`, and finally store the
item returned by that second call with status `OK`.  The bare
`except Exception` swallows every error. -/
def uploadFileHandle (parent_path name : List Char)
    (cb : NameConflictBehavior) (ts2dt : Int → Int) (env : UploadEnv) :
    Outcome :=
  match env.getsize_result with
  | Except.error _ => ⟨[], none⟩
  | Except.ok size =>
    match env.open_result with
    | Except.error _ => ⟨[], none⟩
    | Except.ok _ =>
      match env.upload_result with
      | Except.error _ =>
        ⟨[Event.driveUploadFile name size parent_path cb], none⟩
      | Except.ok item1 =>
        match env.getmtime_result with
        | Except.error _ =>
          ⟨[Event.driveUploadFile name size parent_path cb], none⟩
        | Except.ok ts =>
          match env.update_result with
          | Except.error _ =>
            ⟨[Event.driveUploadFile name size parent_path cb,
              Event.driveUpdateItem item1.id (ts2dt ts)], none⟩
          | Except.ok item2 =>
            ⟨[Event.driveUploadFile name size parent_path cb,
              Event.driveUpdateItem item1.id (ts2dt ts),
              Event.storeUpdate item2 ItemRecordStatus.OK], none⟩

/- ### Interpreting traces -/

/-- Which events are remote drive-client calls. -/
def isRemoteCall : Event → Bool
  | Event.driveCreateDir _ _ _ => true
  | Event.driveDeleteItem _ => true
  | Event.driveDownloadFile _ _ => true
  | Event.driveUploadFile _ _ _ _ => true
  | Event.driveUpdateItem _ _ => true
  | _ => false

/-- Effect of one event on the set of existing local file paths:
`open(p, 'wb')` creates `p`; a successful `os.rename` makes the
destination exist and the source not. -/
def applyEvent (fs : List (List Char)) : Event → List (List Char)
  | Event.fileOpenWrite p => p :: fs
  | Event.osRename src dst => dst :: fs.filter (fun q => !decide (q = src))
  | _ => fs

/-- Fold a trace of events over an initial set of local file paths. -/
def applyEvents (fs : List (List Char)) (evs : List Event) :
    List (List Char) :=
  evs.foldl applyEvent fs

/-- Which events are local-rename filesystem calls. -/
def isRenameEv : Event → Bool
  | Event.osRename _ _ => true
  | _ => false

/- ### Claim C2: CreateDirTask failure atomicity -/

/-- **C2.** If the remote `create_dir` call raises a `OneDriveError`, the
trace of `CreateDirTask.handle` is just the failed remote call: no
item-store update occurs and no follow-up task is enqueued into the task
pool. -/
theorem createDirTask_failure_atomic
    (drive_path local_root parent_path name : List Char)
    (cb : NameConflictBehavior) (env : CreateDirEnv) (m : List Char)
    (h : env.create_dir_result = Except.error m) :
    (createDirHandle drive_path local_root parent_path name cb env).events
      = [Event.driveCreateDir name parent_path cb]
    ∧ (∀ it st, Event.storeUpdate it st ∉
        (createDirHandle drive_path local_root parent_path name cb
          env).events)
    ∧ (∀ t, Event.poolAdd t ∉
        (createDirHandle drive_path local_root parent_path name cb
          env).events) := by
  simp [createDirHandle, h]

/-- Witness for C2 at a concrete failing environment. -/
theorem createDirTask_failure_atomic_witness :
    (createDirHandle (("/d").data) (("/L").data) (("/d/root:/p").data)
        (("a").data) NameConflictBehavior.RENAME
        ⟨Except.error (("err").data), Except.ok ()⟩).events
      = [Event.driveCreateDir (("a").data) (("/d/root:/p").data)
          NameConflictBehavior.RENAME] :=
  (createDirTask_failure_atomic (("/d").data) (("/L").data)
    (("/d/root:/p").data) (("a").data) NameConflictBehavior.RENAME
    ⟨Except.error (("err").data), Except.ok ()⟩ (("err").data) rfl).1

/- ### Claim C3: CreateDirTask success protocol -/

/-- **C3.** On remote success, `CreateDirTask.handle` updates the task's
`parent_path` to the server-confirmed parent path; when the server-returned
name differs from the requested one the local directory entry is renamed
(to the server's name, under the freshly translated local parent path)
exactly once, and not at all when the names agree; the store update
(status `OK`) precedes the enqueue of the follow-up `SynchronizeDirTask`,
which is the last event of the trace. -/
theorem createDirTask_success_protocol
    (drive_path local_root parent_path name : List Char)
    (cb : NameConflictBehavior) (env : CreateDirEnv) (new_item : ItemObj)
    (hc : env.create_dir_result = Except.ok new_item)
    (hr : env.rename_result = Except.ok ()) :
    (createDirHandle drive_path local_root parent_path name cb
        env).parent_path = new_item.parent_reference_path
    ∧ (new_item.name = name →
        (createDirHandle drive_path local_root parent_path name cb
            env).events
          = [Event.driveCreateDir name parent_path cb,
             Event.storeUpdate new_item ItemRecordStatus.OK,
             Event.poolAdd TaskDescr.syncDir])
    ∧ (new_item.name ≠ name →
        (createDirHandle drive_path local_root parent_path name cb
            env).events
          = [Event.driveCreateDir name parent_path cb,
             Event.osRename
               (local_parent_path drive_path local_root
                   new_item.parent_reference_path ++ '/' :: name)
               (local_parent_path drive_path local_root
                   new_item.parent_reference_path ++ '/' :: new_item.name),
             Event.storeUpdate new_item ItemRecordStatus.OK,
             Event.poolAdd TaskDescr.syncDir])
    ∧ ((createDirHandle drive_path local_root parent_path name cb
          env).events.filter isRenameEv).length
        = (if new_item.name = name then 0 else 1) := by
  by_cases hn : new_item.name = name
  · simp [createDirHandle, hc, hr, hn, isRenameEv]
  · simp [createDirHandle, hc, hr, hn, isRenameEv]

/-- Witness for C3 at a concrete environment whose server-returned name
differs from the requested one. -/
theorem createDirTask_success_protocol_witness :
    (createDirHandle (("/d").data) (("/L").data) (("/d/root:/p").data)
        (("a").data) NameConflictBehavior.RENAME
        ⟨Except.ok ⟨("i1").data, ("b").data, ("/d/root:/q").data, 0, 0⟩,
          Except.ok ()⟩).events
      = [Event.driveCreateDir (("a").data) (("/d/root:/p").data)
           NameConflictBehavior.RENAME,
         Event.osRename (("/L/q/a").data) (("/L/q/b").data),
         Event.storeUpdate
           ⟨("i1").data, ("b").data, ("/d/root:/q").data, 0, 0⟩
           ItemRecordStatus.OK,
         Event.poolAdd TaskDescr.syncDir] := by
  have h := (createDirTask_success_protocol (("/d").data) (("/L").data)
    (("/d/root:/p").data) (("a").data) NameConflictBehavior.RENAME
    ⟨Except.ok ⟨("i1").data, ("b").data, ("/d/root:/q").data, 0, 0⟩,
      Except.ok ()⟩ ⟨("i1").data, ("b").data, ("/d/root:/q").data, 0, 0⟩
    rfl rfl).2.2.1 (by decide)
  exact h.trans (by decide)

/- ### Claim C4: RemoveItemTask store semantics -/

/-- **C4.** `RemoveItemTask.handle` passes `parent_path + '/' + name` to
the remote delete; on remote success the store record keyed by
`(parent_path, name, is_folder)` is deleted, and on a `OneDriveError` no
store deletion happens at all. -/
theorem removeItemTask_store_semantics
    (parent_path name : List Char) (is_folder : Bool)
    (env : RemoveItemEnv) :
    (removeItemHandle parent_path name is_folder env).events.head?
      = some (Event.driveDeleteItem (parent_path ++ '/' :: name))
    ∧ (∀ u, env.delete_result = Except.ok u →
        (removeItemHandle parent_path name is_folder env).events
          = [Event.driveDeleteItem (parent_path ++ '/' :: name),
             Event.storeDelete parent_path name is_folder])
    ∧ (∀ m, env.delete_result = Except.error m →
        ∀ pp n f, Event.storeDelete pp n f ∉
          (removeItemHandle parent_path name is_folder env).events) := by
  rcases env with ⟨res⟩
  cases res <;> simp [removeItemHandle]

/-- Witness for C4 at a concrete successful environment. -/
theorem removeItemTask_store_semantics_witness :
    (removeItemHandle (("/d/root:/p").data) (("x").data) true
        ⟨Except.ok ()⟩).events
      = [Event.driveDeleteItem (("/d/root:/p/x").data),
         Event.storeDelete (("/d/root:/p").data) (("x").data) true] := by
  have h := (removeItemTask_store_semantics (("/d/root:/p").data)
    (("x").data) true ⟨Except.ok ()⟩).2.1 () rfl
  exact h.trans (by decide)

/- ### Claim C5: DownloadFileTask success postconditions -/

/-- **C5.** In a run of `DownloadFileTask.handle` in which every external
call succeeds, the content is first written to a hidden temp filename
(starting with `'.'` and distinct from the final name) in the local parent
directory, the temp file is then renamed onto the final local path — so in
the resulting filesystem the final path exists and the temp path does not,
from any starting filesystem — the final file's times are set to
`d2ts item.modified_time` (the item's remote modified time converted to a
filesystem timestamp), and the store is updated for the item with status
`DOWNLOADED`. -/
theorem downloadFileTask_success
    (drive_path local_root : List Char) (d2ts : Int → Int) (item : ItemObj)
    (env : DownloadEnv)
    (ho : env.open_result = Except.ok ())
    (hd : env.download_result = Except.ok ())
    (hr : env.rename_result = Except.ok ())
    (hu : env.utime_result = Except.ok ()) :
    (downloadFileHandle drive_path local_root d2ts item env).events
      = [Event.fileOpenWrite
           (local_parent_path drive_path local_root
               item.parent_reference_path ++ '/' :: get_temp_filename item),
         Event.driveDownloadFile item.id item.size,
         Event.osRename
           (local_parent_path drive_path local_root
               item.parent_reference_path ++ '/' :: get_temp_filename item)
           (local_parent_path drive_path local_root
               item.parent_reference_path ++ '/' :: item.name),
         Event.osUtime
           (local_parent_path drive_path local_root
               item.parent_reference_path ++ '/' :: item.name)
           (d2ts item.modified_time),
         Event.storeUpdate item ItemRecordStatus.DOWNLOADED]
    ∧ get_temp_filename item ≠ item.name
    ∧ (get_temp_filename item).head? = some '.'
    ∧ ∀ fs0 : List (List Char),
        (local_parent_path drive_path local_root
            item.parent_reference_path ++ '/' :: item.name)
          ∈ applyEvents fs0
            (downloadFileHandle drive_path local_root d2ts item env).events
        ∧ (local_parent_path drive_path local_root
              item.parent_reference_path ++ '/' :: get_temp_filename item)
          ∉ applyEvents fs0
            (downloadFileHandle drive_path local_root d2ts item env).events := by
  have h8 : ((".!od_tmp").data).length = 8 := rfl
  have hlen : (get_temp_filename item).length = item.name.length + 9 := by
    simp [get_temp_filename, h8]
  have hne : get_temp_filename item ≠ item.name := by
    intro hcontra
    have := congrArg List.length hcontra
    rw [hlen] at this
    omega
  have hev : (downloadFileHandle drive_path local_root d2ts item
      env).events
      = [Event.fileOpenWrite
           (local_parent_path drive_path local_root
               item.parent_reference_path ++ '/' :: get_temp_filename item),
         Event.driveDownloadFile item.id item.size,
         Event.osRename
           (local_parent_path drive_path local_root
               item.parent_reference_path ++ '/' :: get_temp_filename item)
           (local_parent_path drive_path local_root
               item.parent_reference_path ++ '/' :: item.name),
         Event.osUtime
           (local_parent_path drive_path local_root
               item.parent_reference_path ++ '/' :: item.name)
           (d2ts item.modified_time),
         Event.storeUpdate item ItemRecordStatus.DOWNLOADED] := by
    simp [downloadFileHandle, ho, hd, hr, hu]
  refine ⟨hev, hne, rfl, ?_⟩
  intro fs0
  have hpathne :
      (local_parent_path drive_path local_root item.parent_reference_path
          ++ '/' :: get_temp_filename item)
        ≠ (local_parent_path drive_path local_root
            item.parent_reference_path ++ '/' :: item.name) := by
    intro hcontra
    have := congrArg List.length hcontra
    simp only [List.length_append, List.length_cons, hlen] at this
    omega
  rw [hev]
  constructor
  · simp [applyEvents, applyEvent]
  · simp [applyEvents, applyEvent, List.mem_filter, hpathne]

/-- Witness for C5 at a concrete item and fully successful environment. -/
theorem downloadFileTask_success_witness :
    (downloadFileHandle (("/d").data) (("/L").data) (fun t => t + 7)
        ⟨("i1").data, ("f.txt").data, ("/d/root:/p").data, 4, 100⟩
        ⟨Except.ok (), Except.ok (), Except.ok (), Except.ok ()⟩).events
      = [Event.fileOpenWrite (("/L/p/.f.txt.!od_tmp").data),
         Event.driveDownloadFile (("i1").data) 4,
         Event.osRename (("/L/p/.f.txt.!od_tmp").data)
           (("/L/p/f.txt").data),
         Event.osUtime (("/L/p/f.txt").data) 107,
         Event.storeUpdate
           ⟨("i1").data, ("f.txt").data, ("/d/root:/p").data, 4, 100⟩
           ItemRecordStatus.DOWNLOADED] := by
  have h := (downloadFileTask_success (("/d").data) (("/L").data)
    (fun t => t + 7)
    ⟨("i1").data, ("f.txt").data, ("/d/root:/p").data, 4, 100⟩
    ⟨Except.ok (), Except.ok (), Except.ok (), Except.ok ()⟩
    rfl rfl rfl rfl).1
  exact h.trans (by decide)

/- ### Claim C6: UploadFileTask call order and stored state -/

/-- Whether an `Except` result is a success. -/
def isOkE {α : Type} : Except (List Char) α → Bool
  | Except.ok _ => true
  | Except.error _ => false

/-- Whether every external call of an `UploadFileTask.handle` run
succeeded. -/
def UploadEnv.allOk (e : UploadEnv) : Bool :=
  isOkE e.getsize_result && isOkE e.open_result && isOkE e.upload_result
    && isOkE e.getmtime_result && isOkE e.update_result

/-- **C6.** In a run of `UploadFileTask.handle` in which every external
call succeeds, exactly two remote calls are made — `upload_file` first,
then `update_item` carrying the local file's modification time
`ts2dt ts` — the store receives the item returned by the second call
(`item2`, not `item1`) with status `OK`, and that store update is the last
event; moreover in any run in which some external call fails, no store
update occurs at all. -/
theorem uploadFileTask_protocol
    (parent_path name : List Char) (cb : NameConflictBehavior)
    (ts2dt : Int → Int) (env : UploadEnv) (size : Nat) (item1 : ItemObj)
    (ts : Int) (item2 : ItemObj)
    (h1 : env.getsize_result = Except.ok size)
    (h2 : env.open_result = Except.ok ())
    (h3 : env.upload_result = Except.ok item1)
    (h4 : env.getmtime_result = Except.ok ts)
    (h5 : env.update_result = Except.ok item2) :
    (uploadFileHandle parent_path name cb ts2dt env).events
      = [Event.driveUploadFile name size parent_path cb,
         Event.driveUpdateItem item1.id (ts2dt ts),
         Event.storeUpdate item2 ItemRecordStatus.OK]
    ∧ (uploadFileHandle parent_path name cb ts2dt env).events.filter
        isRemoteCall
      = [Event.driveUploadFile name size parent_path cb,
         Event.driveUpdateItem item1.id (ts2dt ts)]
    ∧ (uploadFileHandle parent_path name cb ts2dt env).events.getLast?
      = some (Event.storeUpdate item2 ItemRecordStatus.OK)
    ∧ ∀ env' : UploadEnv, UploadEnv.allOk env' = false →
        ∀ it st, Event.storeUpdate it st ∉
          (uploadFileHandle parent_path name cb ts2dt env').events := by
  refine ⟨by simp [uploadFileHandle, h1, h2, h3, h4, h5],
    by simp [uploadFileHandle, h1, h2, h3, h4, h5, isRemoteCall],
    by simp [uploadFileHandle, h1, h2, h3, h4, h5], ?_⟩
  intro env' hok it st
  rcases env' with ⟨a, b, c, d, e⟩
  cases a <;> cases b <;> cases c <;> cases d <;> cases e <;>
    simp_all [uploadFileHandle, UploadEnv.allOk, isOkE]

/-- Witness for C6 at a concrete fully successful environment. -/
theorem uploadFileTask_protocol_witness :
    (uploadFileHandle (("/d/root:/p").data) (("g").data)
        NameConflictBehavior.RENAME (fun t => t * 2)
        ⟨Except.ok 5, Except.ok (),
          Except.ok ⟨("i1").data, ("g").data, ("/d/root:/p").data, 5, 0⟩,
          Except.ok 21,
          Except.ok ⟨("i1").data, ("g").data, ("/d/root:/p").data, 5, 42⟩⟩).events
      = [Event.driveUploadFile (("g").data) 5 (("/d/root:/p").data)
           NameConflictBehavior.RENAME,
         Event.driveUpdateItem (("i1").data) 42,
         Event.storeUpdate
           ⟨("i1").data, ("g").data, ("/d/root:/p").data, 5, 42⟩
           ItemRecordStatus.OK] := by
  have h := (uploadFileTask_protocol (("/d/root:/p").data) (("g").data)
    NameConflictBehavior.RENAME (fun t => t * 2)
    ⟨Except.ok 5, Except.ok (),
      Except.ok ⟨("i1").data, ("g").data, ("/d/root:/p").data, 5, 0⟩,
      Except.ok 21,
      Except.ok ⟨("i1").data, ("g").data, ("/d/root:/p").data, 5, 42⟩⟩
    5 ⟨("i1").data, ("g").data, ("/d/root:/p").data, 5, 0⟩ 21
    ⟨("i1").data, ("g").data, ("/d/root:/p").data, 5, 42⟩
    rfl rfl rfl rfl rfl).1
  exact h.trans (by decide)

/- ### Claim C7: child context inheritance -/

/-- **C7.** The four operational task variants do route their constructor
through `TaskMixin.__init__` and so inherit the parent's three context
references unchanged; but `SynchronizeDirTask.__init__` — the one child
`CreateDirTask.handle` constructs from itself as parent — has body `pass`
and leaves all three context attributes unassigned, contradicting the
claimed contract at, e.g., the parent context `(0, 1, 2)`. -/
theorem childContext_inheritance_check :
    (∀ base : TaskBase,
      createDirTask_init_slots base = taskMixin_init_from_base base
      ∧ removeItemTask_init_slots base = taskMixin_init_from_base base
      ∧ downloadFileTask_init_slots base = taskMixin_init_from_base base
      ∧ uploadFileTask_init_slots base = taskMixin_init_from_base base)
    ∧ synchronizeDirTask_init_slots ⟨0, 1, 2⟩
        = (⟨none, none, none⟩ : TaskSlots)
    ∧ synchronizeDirTask_init_slots ⟨0, 1, 2⟩
        ≠ taskMixin_init_from_base ⟨0, 1, 2⟩ :=
  ⟨fun _ => ⟨rfl, rfl, rfl, rfl⟩, rfl, by decide⟩

/- ### Claim C8: error swallowing at the task boundary -/

/-- Counterexample to C8 as stated: a run of `CreateDirTask.handle` in
which the remote create succeeds with a different final name and the local
`os.rename` raises an `OSError` lets that error escape — the `except`
clause covers only `errors.OneDriveError`. -/
theorem createDirHandle_raises_counterexample :
    (createDirHandle (("/d").data) (("/L").data) (("/d/root:/p").data)
        (("a").data) NameConflictBehavior.RENAME
        ⟨Except.ok ⟨("i1").data, ("b").data, ("/d/root:/q").data, 0, 0⟩,
          Except.error (("EACCES").data)⟩).raised
      = some (PyError.osError (("EACCES").data)) := by
  decide

/-- **C8 (amended).** Remote `OneDriveError`s never escape any `handle()`;
`RemoveItemTask.handle` never raises, and `DownloadFileTask.handle` and
`UploadFileTask.handle` never raise at all (bare `except Exception`); but
`CreateDirTask.handle` is an exception to the claim: when the local
`os.rename` inside it fails, the resulting `OSError` escapes (and that is
the only way it raises). -/
theorem handle_error_swallowing
    (drive_path local_root parent_path name : List Char)
    (cb : NameConflictBehavior) (is_folder : Bool) (item : ItemObj)
    (d2ts ts2dt : Int → Int) (cenv : CreateDirEnv) (renv : RemoveItemEnv)
    (denv : DownloadEnv) (uenv : UploadEnv) :
    ((createDirHandle drive_path local_root parent_path name cb
          cenv).raised = none
      ∨ ∃ m, cenv.rename_result = Except.error m
          ∧ (createDirHandle drive_path local_root parent_path name cb
              cenv).raised = some (PyError.osError m))
    ∧ (removeItemHandle parent_path name is_folder renv).raised = none
    ∧ (downloadFileHandle drive_path local_root d2ts item denv).raised
        = none
    ∧ (uploadFileHandle parent_path name cb ts2dt uenv).raised = none := by
  refine ⟨?_, ?_, ?_, ?_⟩
  · rcases cenv with ⟨cr, rr⟩
    cases cr with
    | error m => left; rfl
    | ok it =>
      by_cases hn : it.name = name
      · left; simp [createDirHandle, hn]
      · cases rr with
        | error m =>
          right
          exact ⟨m, rfl, by simp [createDirHandle, hn]⟩
        | ok u => left; simp [createDirHandle, hn]
  · rcases renv with ⟨r⟩
    cases r <;> rfl
  · rcases denv with ⟨a, b, c, d⟩
    cases a <;> cases b <;> cases c <;> cases d <;> rfl
  · rcases uenv with ⟨a, b, c, d, e⟩
    cases a <;> cases b <;> cases c <;> cases d <;> cases e <;> rfl

/- ### Claim C9: temporary names among same-named siblings -/

/-- Counterexample to C9 as stated: two distinct `DownloadFileTask` items
(different ids, same final name, same parent directory) derive the very
same temporary filename, so sibling tasks targeting the same final name
collide on the temp path. -/
theorem tempFilename_collision_counterexample :
    (⟨("i1").data, ("a").data, ("/d/root:/p").data, 1, 0⟩ : ItemObj)
      ≠ ⟨("i2").data, ("a").data, ("/d/root:/p").data, 1, 0⟩
    ∧ get_temp_filename
        ⟨("i1").data, ("a").data, ("/d/root:/p").data, 1, 0⟩
      = get_temp_filename
        ⟨("i2").data, ("a").data, ("/d/root:/p").data, 1, 0⟩ :=
  ⟨by decide, rfl⟩

/-- **C9 (amended).** `get_temp_filename` is determined by the item's final
name alone (`'.' + name + '.!od_tmp'`): the derived temp filename is hidden
and always distinct from the final name, but any two items sharing a final
name derive the SAME temp filename — temp names are not unique among
same-named sibling tasks. -/
theorem get_temp_filename_by_name (i1 i2 : ItemObj)
    (h : i1.name = i2.name) :
    get_temp_filename i1 = get_temp_filename i2
    ∧ get_temp_filename i1 ≠ i1.name
    ∧ (get_temp_filename i1).head? = some '.' := by
  have h8 : ((".!od_tmp").data).length = 8 := rfl
  refine ⟨by simp [get_temp_filename, h], ?_, rfl⟩
  intro hcontra
  have hl := congrArg List.length hcontra
  simp [get_temp_filename, h8] at hl
  omega

/-- Witness for the amended C9 at two concrete items sharing a name. -/
theorem get_temp_filename_by_name_witness :
    get_temp_filename ⟨("i1").data, ("a").data, ("/p").data, 1, 0⟩
      = get_temp_filename ⟨("i2").data, ("a").data, ("/q").data, 2, 3⟩
    ∧ get_temp_filename ⟨("i1").data, ("a").data, ("/p").data, 1, 0⟩
      ≠ ("a").data :=
  ⟨(get_temp_filename_by_name
      ⟨("i1").data, ("a").data, ("/p").data, 1, 0⟩
      ⟨("i2").data, ("a").data, ("/q").data, 2, 3⟩ rfl).1,
    (get_temp_filename_by_name
      ⟨("i1").data, ("a").data, ("/p").data, 1, 0⟩
      ⟨("i2").data, ("a").data, ("/q").data, 2, 3⟩ rfl).2.1⟩

end OnedriveTasks
